import Mathlib

/-!
Verification of the InvoiceAI repository's natural-language specification
against a shallow embedding of its source code.

The embedded code lives in the frontend dashboard component
(`src/unnamed/part_002`): the free-text command router `handleChatCommand`,
the message entry point `handleSendMessage`, the session-state handlers
(`handleFileUpload`, `handleStartCamera`, `handleStopCamera`,
`handleCapturePhoto`), the pipeline trigger `handleProcessInvoice`,
and the invoice table page (`src/frontend/src/pages/InvoiceManagement.tsx`:
`filteredInvoices`, `getConfidenceColor`).  The backend (intake gateway,
field extractor, store) is not present under `src/`; where a claim needs
it, the definition is modelled from the spec and marked as such.

Strings are embedded as `List Char`; JavaScript's `toLowerCase` is
modelled by a character table covering ASCII and the Vietnamese alphabet
(the only scripts occurring in the router's keywords), and `trim` by
dropping whitespace from both ends.
-/

namespace InvoiceAI

/-- Strings are embedded as lists of unicode scalar values. -/
abbrev Str := List Char

/-- Coerce a Lean string literal to the `List Char` embedding. -/
def kw (s : String) : Str := s.data

/-- Apply the first matching (uppercase, lowercase) pair of a case table;
characters matching no key are left unchanged. -/
def applyTable : List (Char × Char) → Char → Char
  | [], c => c
  | (u, l) :: t, c => if c = u then l else applyTable t c

/-- Case table modelling JavaScript `String.prototype.toLowerCase` on the
scripts that occur in the router's inputs: ASCII `A`–`Z` plus the
uppercase Vietnamese letters (base letters with diacritics and `Đ`). -/
def lowerPairs : List (Char × Char) :=
  [('A', 'a'), ('B', 'b'), ('C', 'c'), ('D', 'd'), ('E', 'e'), ('F', 'f'),
   ('G', 'g'), ('H', 'h'), ('I', 'i'), ('J', 'j'), ('K', 'k'), ('L', 'l'),
   ('M', 'm'), ('N', 'n'), ('O', 'o'), ('P', 'p'), ('Q', 'q'), ('R', 'r'),
   ('S', 's'), ('T', 't'), ('U', 'u'), ('V', 'v'), ('W', 'w'), ('X', 'x'),
   ('Y', 'y'), ('Z', 'z'),
   ('À', 'à'), ('Á', 'á'), ('Ả', 'ả'), ('Ã', 'ã'), ('Ạ', 'ạ'),
   ('Ă', 'ă'), ('Ằ', 'ằ'), ('Ắ', 'ắ'), ('Ẳ', 'ẳ'), ('Ẵ', 'ẵ'), ('Ặ', 'ặ'),
   ('Â', 'â'), ('Ầ', 'ầ'), ('Ấ', 'ấ'), ('Ẩ', 'ẩ'), ('Ẫ', 'ẫ'), ('Ậ', 'ậ'),
   ('Đ', 'đ'),
   ('È', 'è'), ('É', 'é'), ('Ẻ', 'ẻ'), ('Ẽ', 'ẽ'), ('Ẹ', 'ẹ'),
   ('Ê', 'ê'), ('Ề', 'ề'), ('Ế', 'ế'), ('Ể', 'ể'), ('Ễ', 'ễ'), ('Ệ', 'ệ'),
   ('Ì', 'ì'), ('Í', 'í'), ('Ỉ', 'ỉ'), ('Ĩ', 'ĩ'), ('Ị', 'ị'),
   ('Ò', 'ò'), ('Ó', 'ó'), ('Ỏ', 'ỏ'), ('Õ', 'õ'), ('Ọ', 'ọ'),
   ('Ô', 'ô'), ('Ồ', 'ồ'), ('Ố', 'ố'), ('Ổ', 'ổ'), ('Ỗ', 'ỗ'), ('Ộ', 'ộ'),
   ('Ơ', 'ơ'), ('Ờ', 'ờ'), ('Ớ', 'ớ'), ('Ở', 'ở'), ('Ỡ', 'ỡ'), ('Ợ', 'ợ'),
   ('Ù', 'ù'), ('Ú', 'ú'), ('Ủ', 'ủ'), ('Ũ', 'ũ'), ('Ụ', 'ụ'),
   ('Ư', 'ư'), ('Ừ', 'ừ'), ('Ứ', 'ứ'), ('Ử', 'ử'), ('Ữ', 'ữ'), ('Ự', 'ự'),
   ('Ỳ', 'ỳ'), ('Ý', 'ý'), ('Ỷ', 'ỷ'), ('Ỹ', 'ỹ'), ('Ỵ', 'ỵ')]

/-- Character-wise case folding (model of JavaScript `toLowerCase`). -/
def jsLower (c : Char) : Char := applyTable lowerPairs c

/-- Whitespace test used by the `trim` model. -/
def isWs (c : Char) : Bool := c.isWhitespace

/-- Model of JavaScript `String.prototype.trim`: drop whitespace from the
front, then from the back. -/
def trimBoth (l : Str) : Str := (l.dropWhile isWs).rdropWhile isWs

/-- Model of `command.toLowerCase().trim()` — the normalization the router
applies to its input (part_002 line 206). -/
def normalize (l : Str) : Str := trimBoth (l.map jsLower)

/-- Model of `cmd.includes(sub)`: does `sub` occur contiguously in `l`? -/
def hasInfix (sub : Str) : Str → Bool
  | [] => sub.isEmpty
  | a :: t => sub.isPrefixOf (a :: t) || hasInfix sub t

/-- Infix test in source order, the receiver first, as in `l.includes(sub)`. -/
def containsSub (l sub : Str) : Bool := hasInfix sub l

/-- The intents the router can dispatch to (one per `return true` branch of
`handleChatCommand`, part_002 lines 205-297). -/
inductive Intent where
  | viewList
  | searchInvoice
  | exportReport
  | filterByDate
  | manageInvoices
  | statistics
  | cameraStart
  | cameraStop
  | capturePhoto
  | processInvoice
  | uploadHelp
deriving DecidableEq, Repr

/-- The per-session mutable state the claims talk about: the pending
uploaded file (`uploadedFile`) and the camera flag (`cameraActive`). -/
structure ChatState where
  uploadedFile : Option Str
  cameraActive : Bool
deriving DecidableEq, Repr

/-- Branch 1: `cmd.includes('xem') && (cmd.includes('danh sách') || cmd.includes('hóa đơn'))`. -/
def viewListPat (cmd : Str) : Bool :=
  containsSub cmd (kw "xem") && (containsSub cmd (kw "danh sách") || containsSub cmd (kw "hóa đơn"))

/-- Branch 2: `cmd.includes('tìm') && cmd.includes('hóa đơn')`. -/
def searchPat (cmd : Str) : Bool :=
  containsSub cmd (kw "tìm") && containsSub cmd (kw "hóa đơn")

/-- Branch 3 (first export pattern): `cmd.includes('xuất') && cmd.includes('hóa đơn')`. -/
def exportPatA (cmd : Str) : Bool :=
  containsSub cmd (kw "xuất") && containsSub cmd (kw "hóa đơn")

/-- Branch 4 (second export pattern):
`cmd.includes('xuất') && (cmd.includes('báo cáo') || cmd.includes('excel') || cmd.includes('pdf') || cmd.includes('file'))`. -/
def exportPatB (cmd : Str) : Bool :=
  containsSub cmd (kw "xuất") &&
    (containsSub cmd (kw "báo cáo") || containsSub cmd (kw "excel") ||
     containsSub cmd (kw "pdf") || containsSub cmd (kw "file"))

/-- Either export pattern. -/
def exportPat (cmd : Str) : Bool := exportPatA cmd || exportPatB cmd

/-- Branch 5 (date filter):
`cmd.includes('lọc') || (cmd.includes('hóa đơn') && (cmd.includes('ngày') || cmd.includes('tháng')) && !cmd.includes('xuất'))`. -/
def datePat (cmd : Str) : Bool :=
  containsSub cmd (kw "lọc") ||
    (containsSub cmd (kw "hóa đơn") &&
      (containsSub cmd (kw "ngày") || containsSub cmd (kw "tháng")) &&
      !containsSub cmd (kw "xuất"))

/-- Branch 6: `cmd.includes('quản lý') && cmd.includes('hóa đơn')`. -/
def managePat (cmd : Str) : Bool :=
  containsSub cmd (kw "quản lý") && containsSub cmd (kw "hóa đơn")

/-- Branch 7: `cmd.includes('thống kê') || cmd.includes('số liệu')`. -/
def statsPat (cmd : Str) : Bool :=
  containsSub cmd (kw "thống kê") || containsSub cmd (kw "số liệu")

/-- Branch 8: `cmd.includes('mở camera') || cmd.includes('bật camera') || cmd.includes('chụp ảnh')`. -/
def camStartPat (cmd : Str) : Bool :=
  containsSub cmd (kw "mở camera") || containsSub cmd (kw "bật camera") ||
    containsSub cmd (kw "chụp ảnh")

/-- Branch 9: `cmd.includes('đóng camera') || cmd.includes('tắt camera')`. -/
def camStopPat (cmd : Str) : Bool :=
  containsSub cmd (kw "đóng camera") || containsSub cmd (kw "tắt camera")

/-- Branch 10's text test: `cmd.includes('chụp')` (combined with `cameraActive`). -/
def capturePat (cmd : Str) : Bool := containsSub cmd (kw "chụp")

/-- Branch 11: `cmd.includes('xử lý') || cmd.includes('phân tích') || cmd.includes('ocr')`. -/
def processPat (cmd : Str) : Bool :=
  containsSub cmd (kw "xử lý") || containsSub cmd (kw "phân tích") ||
    containsSub cmd (kw "ocr")

/-- Branch 12: `cmd.includes('upload') || cmd.includes('tải lên')`. -/
def uploadPat (cmd : Str) : Bool :=
  containsSub cmd (kw "upload") || containsSub cmd (kw "tải lên")

/-- The ordered pattern evaluation of `handleChatCommand` on the already
normalized command: the first matching pattern's intent wins; `none` means
no pattern matched (the function returns `false` and the caller falls back
to the external chat service). -/
def routeCore (st : ChatState) (cmd : Str) : Option Intent :=
  if viewListPat cmd then some .viewList
  else if searchPat cmd then some .searchInvoice
  else if exportPatA cmd then some .exportReport
  else if exportPatB cmd then some .exportReport
  else if datePat cmd then some .filterByDate
  else if managePat cmd then some .manageInvoices
  else if statsPat cmd then some .statistics
  else if camStartPat cmd then some .cameraStart
  else if camStopPat cmd then some .cameraStop
  else if capturePat cmd && st.cameraActive then some .capturePhoto
  else if processPat cmd then some .processInvoice
  else if uploadPat cmd then some .uploadHelp
  else none

/-- Intent selection of `handleChatCommand` on a raw command: normalize
(`command.toLowerCase().trim()`), then evaluate the ordered patterns. -/
def routeIntent (st : ChatState) (command : Str) : Option Intent :=
  routeCore st (normalize command)

/-- The `Invoice` interface of `InvoiceManagement.tsx` (numbers embedded
as rationals, optional fields as `Option`). -/
structure Invoice where
  id : Nat
  invoice_code : Str
  date : Str
  buyer_name : Str
  seller_name : Str
  total_amount : Str
  total_amount_value : ℚ
  subtotal : Option ℚ
  tax_amount : Option ℚ
  tax_percentage : Option ℚ
  currency : Option Str
  buyer_address : Option Str
  seller_address : Option Str
  buyer_tax_id : Option Str
  seller_tax_id : Option Str
  invoice_type : Str
  items : Option Str
  confidence : ℚ
  ocr_method : Option Str
  filename : Option Str
  status : Str
  processed_at : Str
  file_path : Option Str
deriving DecidableEq, Repr

/-- Lowercase an embedded string character-wise. -/
def lowerS (l : Str) : Str := l.map jsLower

/-- Search predicate of `filteredInvoices` (InvoiceManagement.tsx lines
70-73): the lowercased search term occurs in the lowercased code, buyer
name, or seller name. -/
def matchesSearch (searchTerm : Str) (inv : Invoice) : Bool :=
  containsSub (lowerS inv.invoice_code) (lowerS searchTerm) ||
  containsSub (lowerS inv.buyer_name) (lowerS searchTerm) ||
  containsSub (lowerS inv.seller_name) (lowerS searchTerm)

/-- Type filter of `filteredInvoices` (line 75): `filterType === 'all' ||
inv.invoice_type === filterType`. -/
def matchesFilter (filterType : Str) (inv : Invoice) : Bool :=
  filterType == kw "all" || inv.invoice_type == filterType

/-- The conjunction `matchesSearch && matchesFilter` (line 77). -/
def filterPred (searchTerm filterType : Str) (inv : Invoice) : Bool :=
  matchesSearch searchTerm inv && matchesFilter filterType inv

/-- Model of `filteredInvoices` (InvoiceManagement.tsx lines 69-78). -/
def filteredInvoices (searchTerm filterType : Str) (invs : List Invoice) : List Invoice :=
  invs.filter (filterPred searchTerm filterType)

/-- CSS class returned by `getConfidenceColor` for `confidence >= 0.8`. -/
def greenClass : Str := kw "text-green-600 bg-green-100"

/-- CSS class returned by `getConfidenceColor` for `0.6 <= confidence < 0.8`. -/
def yellowClass : Str := kw "text-yellow-600 bg-yellow-100"

/-- CSS class returned by `getConfidenceColor` for `confidence < 0.6`. -/
def redClass : Str := kw "text-red-600 bg-red-100"

/-- Model of `getConfidenceColor` (InvoiceManagement.tsx lines 181-185). -/
def getConfidenceColor (confidence : ℚ) : Str :=
  if (0.8 : ℚ) ≤ confidence then greenClass
  else if (0.6 : ℚ) ≤ confidence then yellowClass
  else redClass

/-- Reliability icon used by the chat list rendering and the process-result
message (part_002 lines 160 and 362):
`confidence >= 0.8 ? checkmark : confidence >= 0.6 ? warning : cross`. -/
def confidenceIcon (c : ℚ) : Str :=
  if (0.8 : ℚ) ≤ c then kw "✅" else if (0.6 : ℚ) ≤ c then kw "⚠️" else kw "❌"

/-- Decimal rendering of a natural number. -/
def natStr (n : Nat) : Str := (Nat.repr n).data

/-- Rendering of `confidence * 100` as a whole percentage (the source's
`toFixed` display rounding is abstracted to the floor). -/
def percentStr (c : ℚ) : Str := natStr ((c * 100).floor.toNat)

/-- Type icon of the chat list entry (part_002 line 161). -/
def typeIcon (t : Str) : Str :=
  if t == kw "momo_payment" then kw "💳" else if t == kw "electricity" then kw "⚡" else kw "📄"

/-- Type label of the chat list entry (part_002 line 162). -/
def typeName (t : Str) : Str :=
  if t == kw "momo_payment" then kw "MoMo" else if t == kw "electricity" then kw "Điện" else kw "Khác"

/-- One rendered entry of the chat invoice list (part_002 lines 159-172);
every displayed record carries its reliability icon. -/
def renderListEntry (idx : Nat) (inv : Invoice) : Str :=
  kw "【" ++ natStr (idx + 1) ++ kw "】 " ++ typeIcon inv.invoice_type ++ kw " **" ++
    inv.invoice_code ++ kw "** (" ++ typeName inv.invoice_type ++ kw ")  \n" ++
  kw "📅 Ngày: " ++ inv.date ++ kw "  \n" ++
  kw "🏢 Người bán: " ++ inv.seller_name ++ kw "  \n" ++
  kw "👤 Người mua: " ++ inv.buyer_name ++ kw "  \n" ++
  kw "💰 Số tiền: **" ++ inv.total_amount ++ kw "**  \n" ++
  confidenceIcon inv.confidence ++ kw " Độ tin cậy: " ++ percentStr inv.confidence ++ kw "%\n\n" ++
  kw "━━━━━━━━━━━━━━━━━━━━\n\n"

/-- Reply shown when the invoice list is empty (part_002 line 146). -/
def listEmptyMsg : Str :=
  kw "📋 **Danh sách hóa đơn**\n\n⚠️ Chưa có hóa đơn nào được xử lý.\n\n💡 Hãy upload hoặc chụp hóa đơn để bắt đầu!"

/-- The rendered invoice list (part_002 lines 145-176): empty-list notice,
or header plus the latest ten entries and a footer. -/
def listMessage (invoices : List Invoice) : Str :=
  if invoices.isEmpty then listEmptyMsg
  else
    kw "📋 **Danh sách hóa đơn**\n\n━━━━━━━━━━━━━━━━━━━━\n\nTổng: **" ++
      natStr invoices.length ++ kw "** hóa đơn\n\n" ++
    ((invoices.take 10).enum.map (fun p => renderListEntry p.1 p.2)).flatten ++
    kw "💡 Gõ mã hóa đơn để xem chi tiết  \n📊 Gõ \"xuất báo cáo\" để xem tất cả"

/-- Reply of the search handler (part_002 line 183). -/
def searchPromptMsg : Str :=
  kw "🔍 **Tìm kiếm hóa đơn**\n\nVui lòng nhập mã hóa đơn bạn muốn tìm (ví dụ: INV-12345)"

/-- Reply of the date-filter handler (part_002 line 186). -/
def filterPromptMsg : Str :=
  kw "📅 **Lọc hóa đơn theo ngày**\n\nVui lòng nhập khoảng thời gian (ví dụ: \"hóa đơn trong tháng 11\" hoặc \"từ 01/11 đến 30/11\")"

/-- Reply of the export handler (part_002 line 189, truncated rendering). -/
def exportMsg : Str :=
  kw "📊 **Xuất báo cáo hóa đơn**\n\n🎯 Chuyển đến trang quản lý hóa đơn"

/-- Reply of the manage-invoices branch (part_002 line 239). -/
def manageMsg : Str := kw "📊 **Đang chuyển đến trang quản lý hóa đơn...**"

/-- Reply of the statistics handler (part_002 line 196, truncated rendering). -/
def statsMsg : Str := kw "📈 **Thống kê hóa đơn**\n\n📊 Dữ liệu tổng quan"

/-- Reply after opening the camera (part_002 line 256). -/
def cameraOpenedMsg : Str :=
  kw "📷 **Đã mở camera!**\n\nCamera đang hoạt động."

/-- Reply when the camera is already open (part_002 line 258). -/
def cameraAlreadyMsg : Str :=
  kw "📷 Camera đang mở rồi! Gõ \"chụp ảnh\" hoặc \"xử lý\" để tiếp tục."

/-- Reply after closing the camera (part_002 line 266). -/
def cameraClosedMsg : Str :=
  kw "📷 **Đã đóng camera!**\n\n💡 Gõ \"mở camera\" để mở lại."

/-- Reply when asked to close a camera that is not open (part_002 line 268). -/
def cameraNotOpenMsg : Str := kw "📷 Camera chưa được mở."

/-- Reply after capturing a photo (part_002 line 275). -/
def capturedMsg : Str :=
  kw "📸 **Đã chụp ảnh!**\n\nẢnh đã được lưu. Gõ \"xử lý\" hoặc \"xử lý hóa đơn\" để phân tích."

/-- Warning of the process-command guard (part_002 line 285): there is
nothing to process. -/
def noInvoiceWarning : Str :=
  kw "⚠️ **Chưa có hóa đơn để xử lý!**\n\nVui lòng:\n• Gõ \"mở camera\" để chụp ảnh\n• Hoặc upload file từ nút bên trái"

/-- Reply of the upload-help branch (part_002 line 292). -/
def uploadHelpMsg : Str :=
  kw "📤 **Upload hóa đơn:**\n\nNhấn vào nút \"Upload File\" 📁 ở bên trái để chọn file hình ảnh hóa đơn từ máy tính.\n\nSau khi chọn file, gõ \"xử lý\" để phân tích!"

/-- Interim reply while the process result is rendered (part_002 line 357). -/
def analyzingMsg : Str := kw "🔍 Đang phân tích hóa đơn..."

/-- Follow-up prompt after a successful process (part_002 line 466). -/
def nextActionsMsg : Str :=
  kw "📤 **Tiếp theo:**\n\n• Upload file mới\n• Gõ \"**mở camera**\" để chụp tiếp\n• Gõ \"**xem danh sách**\" để xem tất cả hóa đơn"

/-- Catch-all reply of `handleProcessInvoice` (part_002 line 471). -/
def processErrorMsg : Str :=
  kw "❌ Có lỗi xảy ra khi xử lý hóa đơn. Vui lòng thử lại!"

/-- Catch-all reply of `handleSendMessage` when the chat call fails
(part_002 line 538). -/
def chatFailMsg : Str :=
  kw "Xin lỗi, tôi gặp sự cố khi xử lý tin nhắn. Vui lòng thử lại."

/-- A single line break, used when joining remediation instructions. -/
def nlStr : Str := kw "\n"

/-- Instruction block of the OCR error message (part_002 lines 337-339):
each instruction followed by a line break, accumulated left to right. -/
def instrBlock (ins : List Str) : Str :=
  ins.foldl (fun acc i => acc ++ i ++ nlStr) []

/-- The remediation message built for `OCR_NOT_AVAILABLE` (part_002 lines
334-341): headline, reason, instructions, and download link. -/
def ocrErrorMessage (message reason : Str) (instructions : List Str) (downloadUrl : Str) : Str :=
  kw "❌ **" ++ message ++ kw "**\n\n" ++
  kw "⚠️ **Lý do:** " ++ reason ++ kw "\n\n" ++
  kw "🔧 **Cách khắc phục:**\n\n" ++
  instrBlock instructions ++
  kw "\n📥 **Link tải:** " ++ downloadUrl ++ kw "\n\n" ++
  kw "💡 **Lưu ý:** Sau khi cài đặt, nhớ khởi động lại backend server!"

/-- Outcome of the `/api/upload` call observed by `handleProcessInvoice`:
the OCR-unavailable error payload, a successful extraction, or a network
failure (part_002 lines 328-352 and the catch at 469). -/
inductive UploadOutcome where
  | ocrUnavailable (message reason : Str) (instructions : List Str) (downloadUrl : Str)
  | okInvoice (invoice : Invoice) (ocrText : Option Str)
  | failed

/-- External collaborators and device results, fixed per turn: chat
service availability and response, the stored invoice list, camera and
capture success, and the upload outcome. -/
structure Env where
  chatOk : Bool
  chat : Str → Str
  invoices : List Invoice
  cameraOk : Bool
  captureOk : Bool
  captureName : Str
  uploadOutcome : UploadOutcome

/-- Model of `handleFileUpload` (part_002 lines 547-553): store the chosen
file and deactivate the camera. -/
def handleFileUpload (name : Str) : ChatState :=
  { uploadedFile := some name, cameraActive := false }

/-- Model of `handleStartCamera` (part_002 lines 555-595): clear the pending
file, then activate the camera; on a device error the flag is reset to
false. -/
def handleStartCamera (env : Env) : ChatState :=
  { uploadedFile := none, cameraActive := env.cameraOk }

/-- Model of `handleStopCamera` (part_002 lines 597-609). -/
def handleStopCamera (st : ChatState) : ChatState :=
  { st with cameraActive := false }

/-- Model of `handleCapturePhoto` (part_002 lines 611-631): when video,
canvas and blob are available, store the captured frame as the pending file
and stop the camera; otherwise nothing changes. -/
def handleCapturePhoto (env : Env) (st : ChatState) : ChatState :=
  if env.captureOk then { uploadedFile := some env.captureName, cameraActive := false } else st

/-- Result of one `handleProcessInvoice` run: the session state afterwards,
the number of `/api/upload` calls made, the invoice displayed as a success
(if any), and the bot replies. -/
structure ProcessResult where
  state : ChatState
  uploadCalls : Nat
  shownInvoice : Option Invoice
  messages : List Str
deriving Repr

/-- Success reply of `handleProcessInvoice` (part_002 lines 361-448,
truncated to the header fields; icon and low-confidence warning as in the
source). -/
def processSuccessMsg (inv : Invoice) : Str :=
  confidenceIcon inv.confidence ++ kw " Đã xử lý hóa đơn! (Độ tin cậy: " ++
    percentStr inv.confidence ++ kw "%)\n\n" ++
  (if inv.confidence < (0.6 : ℚ) then
    kw "⚠️ Lưu ý: Độ tin cậy thấp. Vui lòng kiểm tra lại thông tin.\n\n" else []) ++
  kw "📋 **Thông tin hóa đơn:**\n• Mã số: " ++ inv.invoice_code ++
  kw "\n• Ngày: " ++ inv.date ++
  kw "\n• Người bán: " ++ inv.seller_name ++
  kw "\n• Người mua: " ++ inv.buyer_name ++
  kw "\n• **Tổng cộng: " ++ inv.total_amount ++ kw "**\n\n💾 Đã lưu vào hệ thống."

/-- Model of `handleProcessInvoice` (part_002 lines 299-476): guard on an
empty session; one `/api/upload` call; on `OCR_NOT_AVAILABLE` show the
remediation message and return with the session unchanged; on success show
the extracted invoice, clear the file and stop the camera; on a network
error show the catch-all reply. -/
def handleProcessInvoice (env : Env) (st : ChatState) : ProcessResult :=
  if st.uploadedFile.isNone && !st.cameraActive then ⟨st, 0, none, []⟩
  else
    match env.uploadOutcome with
    | .ocrUnavailable m r ins url => ⟨st, 1, none, [ocrErrorMessage m r ins url]⟩
    | .okInvoice inv _ =>
        ⟨⟨none, false⟩, 1, some inv, [analyzingMsg, processSuccessMsg inv, nextActionsMsg]⟩
    | .failed => ⟨st, 1, none, [processErrorMsg]⟩

/-- Observable result of one `handleChatCommand` run. -/
structure ChatStep where
  matched : Bool
  state : ChatState
  uploadCalls : Nat
  listQueries : Nat
  shownInvoice : Option Invoice
  messages : List Str

/-- Model of `handleChatCommand` (part_002 lines 205-297) with its handler
effects:
the selected intent's handler runs (queries, session mutation, pipeline
trigger, reply); on no match nothing happens and `matched` is false. -/
def handleChatCommand (env : Env) (st : ChatState) (command : Str) : ChatStep :=
  match routeIntent st command with
  | some .viewList => ⟨true, st, 0, 1, none, [listMessage env.invoices]⟩
  | some .searchInvoice => ⟨true, st, 0, 0, none, [searchPromptMsg]⟩
  | some .exportReport => ⟨true, st, 0, 0, none, [exportMsg]⟩
  | some .filterByDate => ⟨true, st, 0, 0, none, [filterPromptMsg]⟩
  | some .manageInvoices => ⟨true, st, 0, 0, none, [manageMsg]⟩
  | some .statistics => ⟨true, st, 0, 0, none, [statsMsg]⟩
  | some .cameraStart =>
      if st.cameraActive then ⟨true, st, 0, 0, none, [cameraAlreadyMsg]⟩
      else ⟨true, handleStartCamera env, 0, 0, none, [cameraOpenedMsg]⟩
  | some .cameraStop =>
      if st.cameraActive then ⟨true, handleStopCamera st, 0, 0, none, [cameraClosedMsg]⟩
      else ⟨true, st, 0, 0, none, [cameraNotOpenMsg]⟩
  | some .capturePhoto => ⟨true, handleCapturePhoto env st, 0, 0, none, [capturedMsg]⟩
  | some .processInvoice =>
      if st.uploadedFile.isSome || st.cameraActive then
        let r := handleProcessInvoice env st
        ⟨true, r.state, r.uploadCalls, 0, r.shownInvoice, r.messages⟩
      else ⟨true, st, 0, 0, none, [noInvoiceWarning]⟩
  | some .uploadHelp => ⟨true, st, 0, 0, none, [uploadHelpMsg]⟩
  | none => ⟨false, st, 0, 0, none, []⟩

/-- Observable result of one `handleSendMessage` run. -/
structure SendResult where
  isCommand : Bool
  state : ChatState
  reply : List Str
  uploadCalls : Nat
  listQueries : Nat

/-- Model of `handleSendMessage` (part_002 lines 478-545): ignore blank
input; call
the chat service with the raw text; run the command router; if a command
matched, show its handler's replies, otherwise show the chat service's
response unchanged; if the chat call failed, show the catch-all reply and
never run the router. -/
def handleSendMessage (env : Env) (st : ChatState) (input : Str) : SendResult :=
  if trimBoth input = [] then ⟨false, st, [], 0, 0⟩
  else if env.chatOk then
    let step := handleChatCommand env st input
    if step.matched then ⟨true, step.state, step.messages, step.uploadCalls, step.listQueries⟩
    else ⟨false, st, [env.chat input], 0, 0⟩
  else ⟨false, st, [chatFailMsg], 0, 0⟩

/-- The session-state invariant of claim C9: a pending uploaded file and
an active camera are never both present. -/
def sessionInv (st : ChatState) : Bool :=
  !(st.uploadedFile.isSome && st.cameraActive)

/-- Proposition that `sub` occurs contiguously inside `l`. -/
def occursIn (sub l : Str) : Prop := ∃ x y, l = x ++ sub ++ y

/-! ### Spec-modelled backend

The backend (FastAPI service) is not present under `src/`; only its
callers are.  The definitions below are modelled from the spec (sections
3, 4.1, 4.4, 4.5) and are used solely for claims C2 and C7. -/

/-- Modelled from the spec: UploadJob status set (spec section 3); the
backend owning it is missing from src/. -/
inductive JobStatus where
  | queued
  | processing
  | done
  | failed
  | cancelled
deriving DecidableEq, Repr

/-- Modelled from the spec: an UploadJob created at intake (spec section 3). -/
structure UploadJob where
  id : Nat
  owner : Str
  imageRef : Nat
  status : JobStatus
  attempts : Nat
deriving DecidableEq, Repr

/-- Modelled from the spec: invoice type variants (spec section 3). -/
inductive InvoiceType where
  | electricity
  | mobilePayment
  | generic
deriving DecidableEq, Repr

/-- Modelled from the spec: a line item of an InvoiceRecord (spec section 3). -/
structure LineItem where
  name : Str
  quantity : ℚ
  unitPrice : ℚ
  amount : ℚ
deriving DecidableEq, Repr

/-- Modelled from the spec: a persisted InvoiceRecord (spec section 3);
the persisting backend is missing from src/. -/
structure InvoiceRecord where
  recordId : Nat
  invoiceType : InvoiceType
  date : Str
  sellerName : Str
  sellerAddress : Str
  buyerName : Str
  buyerAddress : Str
  sellerTaxId : Str
  buyerTaxId : Str
  subtotal : Option ℚ
  taxAmount : Option ℚ
  taxPercentage : Option ℚ
  totalAmount : Option ℚ
  currency : Str
  lineItems : List LineItem
  confidence : ℚ
  rawText : Str
  imageRef : Nat
  createdAt : Nat
deriving DecidableEq, Repr

/-- Modelled from the spec: backend persistent state — jobs, records, raw
image bytes, and the id counter (spec sections 3 and 4.5). -/
structure BackendStore where
  jobs : List UploadJob
  records : List InvoiceRecord
  images : List (Nat × List Nat)
  nextId : Nat
deriving DecidableEq, Repr

/-- Modelled from the spec: an incoming multipart upload (content type and
size are what intake validates, spec section 4.1). -/
structure UploadPayload where
  contentType : Str
  size : Nat
  bytes : List Nat
deriving DecidableEq, Repr

/-- Modelled from the spec: the immediate intake response `{jobId, status}`
(spec section 6); mirrors the frontend type
`uploadInvoice(): Promise<{job_id, status}>` (apiService.ts line 159). -/
structure UploadResponse where
  jobId : Nat
  status : JobStatus
deriving DecidableEq, Repr

/-- Modelled from the spec: content types intake accepts (the UI accepts
`image/*` and `.pdf`, part_002 line 881). -/
def allowedContentTypes : List Str :=
  [kw "image/jpeg", kw "image/png", kw "image/webp", kw "application/pdf"]

/-- Modelled from the spec: intake size ceiling (10 MiB; exposed as a
configurable constant, spec section 9). -/
def maxUploadBytes : Nat := 10485760

/-- Modelled from the spec: intake validation — content type and size
(spec section 4.1). -/
def validUpload (p : UploadPayload) : Bool :=
  allowedContentTypes.contains p.contentType &&
    decide (0 < p.size) && decide (p.size ≤ maxUploadBytes)

/-- Modelled from the spec: the Intake Gateway (spec section 4.1; the
`/api/upload` route handler is missing from src/). On a valid upload it
persists raw bytes, creates a `queued` UploadJob, and returns `{jobId,
status}` without running recognition; on rejection it fails synchronously
before any job is created. -/
def intakeUpload (store : BackendStore) (owner : Str) (p : UploadPayload) :
    Except Str (UploadResponse × BackendStore) :=
  if validUpload p then
    let job : UploadJob := ⟨store.nextId, owner, store.nextId, .queued, 0⟩
    .ok (⟨job.id, .queued⟩,
      { store with
        jobs := store.jobs ++ [job]
        images := store.images ++ [(store.nextId, p.bytes)]
        nextId := store.nextId + 1 })
  else .error (kw "ValidationError")

/-- Clip a rational to the unit interval. -/
def clip01 (x : ℚ) : ℚ := max 0 (min 1 x)

/-- Modelled from the spec: the fraction of type-required fields that were
populated (spec section 4.4, step 3). -/
def fieldFraction (populated required : Nat) : ℚ :=
  if required = 0 then 1 else (populated : ℚ) / (required : ℚ)

/-- Modelled from the spec: confidence scoring — a weighted combination of
field completeness and the engine's own confidence signal when supplied,
clipped to the unit interval (spec section 4.4, step 3); the scoring
backend is missing from src/. -/
def confidenceScore (wField wEngine : ℚ) (populated required : Nat)
    (engineConf : Option ℚ) : ℚ :=
  clip01 (match engineConf with
    | some e => wField * fieldFraction populated required + wEngine * e
    | none => fieldFraction populated required)

/-- Modelled from the spec: attach a freshly computed confidence score to
an extracted record before persisting it. -/
def scoredRecord (base : InvoiceRecord) (wField wEngine : ℚ)
    (populated required : Nat) (engineConf : Option ℚ) : InvoiceRecord :=
  { base with confidence := confidenceScore wField wEngine populated required engineConf }

/-- Modelled from the spec: idempotent `upsert(record)` keyed by record id
(spec section 4.5); the Invoice Store is missing from src/. -/
def upsertRecord (store : BackendStore) (rec : InvoiceRecord) : BackendStore :=
  { store with records :=
      if store.records.any (fun r => r.recordId == rec.recordId) then
        store.records.map (fun r => if r.recordId == rec.recordId then rec else r)
      else store.records ++ [rec] }

/-- Modelled from the spec: a worker completing a job persists the scored
record through the store's upsert (spec sections 4.2, 4.4, 4.5). -/
def completeJob (store : BackendStore) (base : InvoiceRecord) (wField wEngine : ℚ)
    (populated required : Nat) (engineConf : Option ℚ) : BackendStore :=
  upsertRecord store (scoredRecord base wField wEngine populated required engineConf)

/-- The percentage the interfaces display: `confidence * 100`
(InvoiceManagement.tsx line 345, part_002 lines 170 and 361). -/
def displayedPercent (c : ℚ) : ℚ := c * 100

/-- Sample environment used by the witness theorems: chat succeeds, the
camera and capture work, the store is empty, uploads fail over the network. -/
def demoEnv : Env :=
  { chatOk := true, chat := fun _ => kw "xin chào", invoices := [],
    cameraOk := true, captureOk := true, captureName := kw "camera-1.jpg",
    uploadOutcome := .failed }

/-- Sample `OCR_NOT_AVAILABLE` payload used by the witness theorems. -/
def demoOcrOutcome : UploadOutcome :=
  UploadOutcome.ocrUnavailable (kw "OCR không khả dụng")
    (kw "Tesseract chưa được cài đặt")
    [kw "1. Tải Tesseract installer", kw "2. Chạy installer và cài đặt"]
    (kw "https://github.com/UB-Mannheim/tesseract/wiki")

/-- The sample environment with the OCR engine unavailable. -/
def demoOcrEnv : Env :=
  { demoEnv with uploadOutcome := demoOcrOutcome }

/-- Sample backend store used by the witness theorems. -/
def demoStore : BackendStore := ⟨[], [], [], 7⟩

/-- Sample valid upload used by the witness theorems. -/
def demoPayload : UploadPayload := ⟨kw "image/png", 2048, [137, 80, 78, 71]⟩

/-- Sample extracted record used by the witness theorems. -/
def demoRecord : InvoiceRecord :=
  ⟨7, .electricity, kw "05/11/2025", kw "EVN Hà Nội", kw "", kw "Nguyễn Văn A", kw "",
   kw "", kw "", some 500000, some 40000, some 8, some 540000, kw "VND", [],
   (1 : ℚ) / 2, kw "HOA DON TIEN DIEN", 7, 0⟩

/-! ### Helper lemmas -/

/-- Looking a character up in a case table either leaves it unchanged or
returns some pair's value. -/
theorem applyTable_cases (ps : List (Char × Char)) (c : Char) :
    applyTable ps c = c ∨ ∃ p ∈ ps, p.1 = c ∧ applyTable ps c = p.2 := by
  induction ps with
  | nil => exact Or.inl rfl
  | cons q t ih =>
    by_cases h : c = q.1
    · right
      refine ⟨q, List.mem_cons_self _ _, h.symm, ?_⟩
      simp [applyTable, h]
    · rcases ih with h2 | ⟨p, hp, h1, h2⟩
      · left
        simpa [applyTable, h] using h2
      · right
        refine ⟨p, List.mem_cons_of_mem _ hp, h1, ?_⟩
        simpa [applyTable, h] using h2

set_option maxRecDepth 4000 in
/-- Every lowercase value of the case table is a fixed point of the table. -/
theorem lowerPairs_value_fixed : ∀ p ∈ lowerPairs, applyTable lowerPairs p.2 = p.2 := by decide

set_option maxRecDepth 4000 in
/-- No entry of the case table involves whitespace. -/
theorem lowerPairs_not_ws : ∀ p ∈ lowerPairs, isWs p.1 = false ∧ isWs p.2 = false := by decide

/-- Case folding is idempotent. -/
theorem jsLower_idem (c : Char) : jsLower (jsLower c) = jsLower c := by
  unfold jsLower
  rcases applyTable_cases lowerPairs c with h | ⟨p, hp, _, h2⟩
  · rw [h]
    exact h
  · rw [h2]
    exact lowerPairs_value_fixed p hp

/-- Case folding preserves whitespace-ness. -/
theorem isWs_jsLower (c : Char) : isWs (jsLower c) = isWs c := by
  unfold jsLower
  rcases applyTable_cases lowerPairs c with h | ⟨p, hp, h1, h2⟩
  · rw [h]
  · rw [h2, ← h1]
    rcases lowerPairs_not_ws p hp with ⟨hk, hv⟩
    rw [hk, hv]

/-- Function form of `isWs_jsLower`. -/
theorem isWs_comp_jsLower : isWs ∘ jsLower = isWs :=
  funext isWs_jsLower

/-- Case folding a string twice equals case folding it once. -/
theorem map_jsLower_idem (l : Str) : (l.map jsLower).map jsLower = l.map jsLower := by
  rw [List.map_map]
  exact List.map_congr_left fun a _ => jsLower_idem a

/-- Case folding commutes with dropping leading whitespace. -/
theorem dropWhile_map_jsLower (l : Str) :
    (l.map jsLower).dropWhile isWs = (l.dropWhile isWs).map jsLower := by
  rw [List.dropWhile_map, isWs_comp_jsLower]

/-- Case folding commutes with dropping trailing whitespace. -/
theorem rdropWhile_map_jsLower (l : Str) :
    (l.map jsLower).rdropWhile isWs = (l.rdropWhile isWs).map jsLower := by
  unfold List.rdropWhile
  rw [← List.map_reverse, dropWhile_map_jsLower, List.map_reverse]

/-- Case folding commutes with trimming. -/
theorem trimBoth_map_jsLower (l : Str) :
    trimBoth (l.map jsLower) = (trimBoth l).map jsLower := by
  unfold trimBoth
  rw [dropWhile_map_jsLower, rdropWhile_map_jsLower]

/-- A leading segment of a list with no leading matches has no leading
matches either. -/
theorem dropWhile_self_of_leading {p : Char → Bool} {r m : Str}
    (hpre : r <+: m) (hm : m.dropWhile p = m) : r.dropWhile p = r := by
  rw [List.dropWhile_eq_self_iff] at hm ⊢
  intro hl
  have hlm : 0 < m.length := lt_of_lt_of_le hl hpre.length_le
  have hg : r.get ⟨0, hl⟩ = m.get ⟨0, hlm⟩ := by
    simpa using hpre.getElem hl
  rw [hg]
  exact hm hlm

/-- Trimming is idempotent. -/
theorem trimBoth_trimBoth (l : Str) : trimBoth (trimBoth l) = trimBoth l := by
  unfold trimBoth
  have hpre := List.rdropWhile_prefix isWs (l.dropWhile isWs)
  have h1 : ((l.dropWhile isWs).rdropWhile isWs).dropWhile isWs
      = (l.dropWhile isWs).rdropWhile isWs :=
    dropWhile_self_of_leading hpre (List.dropWhile_idempotent _ _)
  rw [h1, List.rdropWhile_idempotent]

/-- Normalization (case folding then trimming) is idempotent. -/
theorem normalize_normalize (l : Str) : normalize (normalize l) = normalize l := by
  unfold normalize
  rw [trimBoth_map_jsLower, trimBoth_trimBoth, ← trimBoth_map_jsLower, map_jsLower_idem]

/-- When no pattern matches, the router reports no command. -/
theorem routeIntent_none_matched_false (env : Env) (st : ChatState) (s : Str)
    (h : routeIntent st s = none) : (handleChatCommand env st s).matched = false := by
  simp [handleChatCommand, h]

/-- Occurrence is stable under prepending. -/
theorem occursIn_append_left (a : Str) {sub b : Str} (h : occursIn sub b) :
    occursIn sub (a ++ b) := by
  obtain ⟨x, y, rfl⟩ := h
  exact ⟨a ++ x, y, by simp⟩

/-- Occurrence is stable under appending. -/
theorem occursIn_append_right (c : Str) {sub b : Str} (h : occursIn sub b) :
    occursIn sub (b ++ c) := by
  obtain ⟨x, y, rfl⟩ := h
  exact ⟨x, y ++ c, by simp⟩

/-- Folding the instruction-join over any accumulator appends the block. -/
theorem foldl_append_nl (t : List Str) (acc : Str) :
    t.foldl (fun a j => a ++ j ++ nlStr) acc = acc ++ instrBlock t := by
  induction t generalizing acc with
  | nil => simp [instrBlock]
  | cons j u ih =>
    show u.foldl (fun a j => a ++ j ++ nlStr) (acc ++ j ++ nlStr) = acc ++ instrBlock (j :: u)
    have h2 : instrBlock (j :: u) = (([] : Str) ++ j ++ nlStr) ++ instrBlock u := by
      show u.foldl (fun a j => a ++ j ++ nlStr) (([] : Str) ++ j ++ nlStr) = _
      rw [ih]
    rw [ih, h2]
    simp

/-- Unfolding one instruction off the instruction block. -/
theorem instrBlock_cons (i : Str) (t : List Str) :
    instrBlock (i :: t) = (i ++ nlStr) ++ instrBlock t := by
  show t.foldl (fun a j => a ++ j ++ nlStr) (([] : Str) ++ i ++ nlStr) = _
  rw [foldl_append_nl]
  simp

/-- Every instruction of the list occurs in the rendered block. -/
theorem occursIn_instrBlock {i : Str} {ins : List Str} (h : i ∈ ins) :
    occursIn i (instrBlock ins) := by
  induction ins with
  | nil => cases h
  | cons a t ih =>
    rw [instrBlock_cons]
    rcases List.mem_cons.mp h with rfl | hmem
    · exact ⟨[], nlStr ++ instrBlock t, by simp⟩
    · exact occursIn_append_left _ (ih hmem)

/-- The remediation message splits around the reason text. -/
theorem ocrErrorMessage_shape (m r : Str) (ins : List Str) (url : Str) :
    ocrErrorMessage m r ins url =
      (kw "❌ **" ++ m ++ kw "**\n\n" ++ kw "⚠️ **Lý do:** ") ++ r ++
      (kw "\n\n" ++ kw "🔧 **Cách khắc phục:**\n\n" ++ instrBlock ins ++
       kw "\n📥 **Link tải:** " ++ url ++ kw "\n\n" ++
       kw "💡 **Lưu ý:** Sau khi cài đặt, nhớ khởi động lại backend server!") := by
  simp [ocrErrorMessage]

/-- The unit-interval clip lands in the unit interval. -/
theorem clip01_bounds (x : ℚ) : 0 ≤ clip01 x ∧ clip01 x ≤ 1 := by
  unfold clip01
  constructor
  · exact le_max_left 0 _
  · exact max_le (by norm_num) (min_le_left 1 x)

/-- The confidence score always lands in the unit interval. -/
theorem confidenceScore_bounds (wField wEngine : ℚ) (populated required : Nat)
    (engineConf : Option ℚ) :
    0 ≤ confidenceScore wField wEngine populated required engineConf ∧
    confidenceScore wField wEngine populated required engineConf ≤ 1 := by
  unfold confidenceScore
  exact clip01_bounds _

/-- A three-way threshold selector hits each of three distinct outputs
exactly on its bin. -/
theorem ite_bins (g y r : Str) (hgy : g ≠ y) (hgr : g ≠ r) (hyr : y ≠ r) (c : ℚ) :
    ((if (0.8 : ℚ) ≤ c then g else if (0.6 : ℚ) ≤ c then y else r) = g ↔ (0.8 : ℚ) ≤ c) ∧
    ((if (0.8 : ℚ) ≤ c then g else if (0.6 : ℚ) ≤ c then y else r) = y ↔
      (0.6 : ℚ) ≤ c ∧ c < (0.8 : ℚ)) ∧
    ((if (0.8 : ℚ) ≤ c then g else if (0.6 : ℚ) ≤ c then y else r) = r ↔ c < (0.6 : ℚ)) := by
  by_cases h8 : (0.8 : ℚ) ≤ c
  · rw [if_pos h8]
    refine ⟨iff_of_true rfl h8, iff_of_false hgy ?_, iff_of_false hgr ?_⟩
    · rintro ⟨-, hlt⟩
      exact absurd h8 (not_le.mpr hlt)
    · intro hlt
      have : c < (0.8 : ℚ) := lt_of_lt_of_le hlt (by norm_num)
      exact absurd h8 (not_le.mpr this)
  · by_cases h6 : (0.6 : ℚ) ≤ c
    · rw [if_neg h8, if_pos h6]
      refine ⟨iff_of_false (fun hc => hgy hc.symm) h8,
        iff_of_true rfl ⟨h6, lt_of_not_le h8⟩,
        iff_of_false hyr (not_lt.mpr h6)⟩
    · rw [if_neg h8, if_neg h6]
      refine ⟨iff_of_false (fun hc => hgr hc.symm) h8,
        iff_of_false (fun hc => hyr hc.symm) ?_,
        iff_of_true rfl (lt_of_not_le h6)⟩
      rintro ⟨hge, -⟩
      exact h6 hge

/-- The table's confidence badge class is exactly the declared bin. -/
theorem getConfidenceColor_trichotomy (c : ℚ) :
    (getConfidenceColor c = greenClass ↔ (0.8 : ℚ) ≤ c) ∧
    (getConfidenceColor c = yellowClass ↔ (0.6 : ℚ) ≤ c ∧ c < (0.8 : ℚ)) ∧
    (getConfidenceColor c = redClass ↔ c < (0.6 : ℚ)) :=
  ite_bins greenClass yellowClass redClass (by decide) (by decide) (by decide) c

/-- The chat list's confidence icon is exactly the declared bin. -/
theorem confidenceIcon_trichotomy (c : ℚ) :
    (confidenceIcon c = kw "✅" ↔ (0.8 : ℚ) ≤ c) ∧
    (confidenceIcon c = kw "⚠️" ↔ (0.6 : ℚ) ≤ c ∧ c < (0.8 : ℚ)) ∧
    (confidenceIcon c = kw "❌" ↔ c < (0.6 : ℚ)) :=
  ite_bins (kw "✅") (kw "⚠️") (kw "❌") (by decide) (by decide) (by decide) c

/-- Every handler of the command router leaves the session satisfying the
exclusivity invariant. -/
theorem sessionInv_handleChatCommand (env : Env) (st : ChatState) (s : Str)
    (h : sessionInv st = true) : sessionInv (handleChatCommand env st s).state = true := by
  obtain ⟨f, c⟩ := st
  unfold handleChatCommand
  cases hr : routeIntent ⟨f, c⟩ s with
  | none => simpa using h
  | some i =>
    cases i <;> cases f <;> cases c <;>
      cases hout : env.uploadOutcome <;>
      simp_all [handleStartCamera, handleStopCamera, handleCapturePhoto,
        handleProcessInvoice, sessionInv] <;>
      split <;> simp

/-! ### The claims -/

/-- Claim C1: the input "xem danh sách hóa đơn" (after case-folding and
trimming) is routed to the view-list handler, which queries the invoice
list; and any input matching none of the ordered intent patterns is handled
by the fallback path, which returns the external chat service's response
for the raw text unchanged. -/
theorem viewList_command_routes_and_fallback_passthrough :
    routeIntent ⟨none, false⟩ (kw "xem danh sách hóa đơn") = some Intent.viewList ∧
    routeIntent ⟨none, false⟩ (kw "  Xem Danh Sách Hóa Đơn ") = some Intent.viewList ∧
    (∀ env : Env, (handleChatCommand env ⟨none, false⟩ (kw "xem danh sách hóa đơn")).listQueries = 1) ∧
    ∀ (env : Env) (st : ChatState) (s : Str),
      env.chatOk = true → routeIntent st s = none → trimBoth s ≠ [] →
      (handleSendMessage env st s).reply = [env.chat s] ∧
      (handleSendMessage env st s).isCommand = false := by
  refine ⟨by decide, by decide, ?_, ?_⟩
  · intro env
    have h : routeIntent (⟨none, false⟩ : ChatState) (kw "xem danh sách hóa đơn")
        = some Intent.viewList := by decide
    simp [handleChatCommand, h]
  · intro env st s hok hnone hne
    have hm := routeIntent_none_matched_false env st s hnone
    simp [handleSendMessage, hne, hok, hm]

/-- Witness for claim C1: an unmatched input is answered with the chat
service's response, at a concrete environment and input. -/
theorem viewList_fallback_witness :
    (handleSendMessage demoEnv ⟨none, false⟩ (kw "bonjour")).reply
        = [demoEnv.chat (kw "bonjour")] ∧
    (handleSendMessage demoEnv ⟨none, false⟩ (kw "bonjour")).isCommand = false :=
  viewList_command_routes_and_fallback_passthrough.2.2.2 demoEnv ⟨none, false⟩ (kw "bonjour")
    rfl (by decide) (by decide)

/-- Claim C2 (spec-modelled intake, the backend is not under src/): a valid
upload is answered with the new job's id and its `queued` status — recognition
has not run, and no invoice record is part of the response or the store. -/
theorem intake_responds_jobId_status (store : BackendStore) (owner : Str)
    (p : UploadPayload) (h : validUpload p = true) :
    intakeUpload store owner p =
      Except.ok (⟨store.nextId, JobStatus.queued⟩,
        { store with
          jobs := store.jobs ++ [⟨store.nextId, owner, store.nextId, .queued, 0⟩]
          images := store.images ++ [(store.nextId, p.bytes)]
          nextId := store.nextId + 1 }) ∧
    ∀ resp store', intakeUpload store owner p = Except.ok (resp, store') →
      resp.jobId = store.nextId ∧ resp.status = JobStatus.queued ∧
      (⟨store.nextId, owner, store.nextId, .queued, 0⟩ : UploadJob) ∈ store'.jobs ∧
      store'.records = store.records := by
  have heq : intakeUpload store owner p =
      Except.ok (⟨store.nextId, JobStatus.queued⟩,
        { store with
          jobs := store.jobs ++ [⟨store.nextId, owner, store.nextId, .queued, 0⟩]
          images := store.images ++ [(store.nextId, p.bytes)]
          nextId := store.nextId + 1 }) := by
    simp [intakeUpload, h]
  refine ⟨heq, fun resp store' hok => ?_⟩
  rw [heq] at hok
  have h' := Except.ok.inj hok
  have h1 : resp = ⟨store.nextId, JobStatus.queued⟩ := (congrArg Prod.fst h').symm
  have h2 : store' = _ := (congrArg Prod.snd h').symm
  subst h1
  subst h2
  refine ⟨rfl, rfl, ?_, rfl⟩
  simp

/-- Witness for claim C2 at a concrete store and upload. -/
theorem intake_responds_jobId_status_witness :
    intakeUpload demoStore (kw "user-1") demoPayload =
      Except.ok (⟨7, JobStatus.queued⟩,
        ⟨[⟨7, kw "user-1", 7, .queued, 0⟩], [], [(7, [137, 80, 78, 71])], 8⟩) :=
  (intake_responds_jobId_status demoStore (kw "user-1") demoPayload (by decide)).1

/-- Counterexample to claim C3 as stated: "xem lọc xuất hóa đơn" matches an
export pattern and the date-filter pattern, yet the router dispatches it to
the view-list handler (the earlier branch), not the export handler. -/
theorem export_over_date_counterexample :
    exportPat (normalize (kw "xem lọc xuất hóa đơn")) = true ∧
    datePat (normalize (kw "xem lọc xuất hóa đơn")) = true ∧
    routeIntent ⟨none, false⟩ (kw "xem lọc xuất hóa đơn") ≠ some Intent.exportReport ∧
    routeIntent ⟨none, false⟩ (kw "xem lọc xuất hóa đơn") = some Intent.viewList := by
  refine ⟨by decide, by decide, by decide, by decide⟩

/-- Claim C3 as amended: an input matching an export pattern is never
dispatched to the date-filter handler; and when neither of the earlier
view-list and search patterns matches, it is dispatched to the export
handler. -/
theorem export_never_loses_to_dateFilter (st : ChatState) (s : Str)
    (h : exportPat (normalize s) = true) :
    routeIntent st s ≠ some Intent.filterByDate ∧
    (viewListPat (normalize s) = false → searchPat (normalize s) = false →
      routeIntent st s = some Intent.exportReport) := by
  unfold routeIntent routeCore
  unfold exportPat at h
  cases hA : exportPatA (normalize s) <;> cases hB : exportPatB (normalize s)
  · rw [hA, hB] at h
    simp at h
  all_goals
    cases hV : viewListPat (normalize s) <;> cases hS : searchPat (normalize s) <;>
      refine ⟨by simp [hA, hB, hV, hS], fun hv hs => by simp_all⟩

/-- Witness for the amended claim C3: "xuất hóa đơn tháng 11" (export by
date) goes to the export handler, not the date filter. -/
theorem export_never_loses_to_dateFilter_witness :
    routeIntent ⟨none, false⟩ (kw "xuất hóa đơn tháng 11") ≠ some Intent.filterByDate ∧
    routeIntent ⟨none, false⟩ (kw "xuất hóa đơn tháng 11") = some Intent.exportReport := by
  have h := export_never_loses_to_dateFilter ⟨none, false⟩ (kw "xuất hóa đơn tháng 11") (by decide)
  exact ⟨h.1, h.2 (by decide) (by decide)⟩

/-- Claim C4: on the fallback path (no intent pattern matched) the session
state — the pending upload handle and the camera flag — is left unchanged. -/
theorem fallback_preserves_session_state (env : Env) (st : ChatState) (s : Str)
    (h : routeIntent st s = none) :
    (handleSendMessage env st s).state = st := by
  by_cases he : trimBoth s = []
  · simp [handleSendMessage, he]
  · cases hok : env.chatOk
    · simp [handleSendMessage, he, hok]
    · have hm := routeIntent_none_matched_false env st s h
      simp [handleSendMessage, he, hok, hm]

/-- Witness for claim C4 at a concrete unmatched input and a session with a
pending file. -/
theorem fallback_preserves_session_state_witness :
    (handleSendMessage demoEnv ⟨some (kw "bill.jpg"), false⟩ (kw "hello there")).state
      = ⟨some (kw "bill.jpg"), false⟩ :=
  fallback_preserves_session_state demoEnv _ _ (by decide)

/-- Claim C5: routing is invariant under case folding and trimming — the
intent selected for an input equals the intent selected for its
case-folded, trimmed form, for every session state. -/
theorem routing_invariant_under_normalization (st : ChatState) (s : Str) :
    routeIntent st (normalize s) = routeIntent st s := by
  unfold routeIntent
  rw [normalize_normalize]

/-- Claim C6: when the engine is unavailable, processing surfaces the
reason, each remediation instruction, and the download link in one reply,
makes exactly one upload call (no retry), shows no invoice as a success,
and leaves the session unchanged. -/
theorem engine_unavailable_surfaced_not_retried (env : Env) (st : ChatState)
    (m r : Str) (ins : List Str) (url : Str)
    (hout : env.uploadOutcome = .ocrUnavailable m r ins url)
    (hsess : (st.uploadedFile.isSome || st.cameraActive) = true) :
    handleProcessInvoice env st = ⟨st, 1, none, [ocrErrorMessage m r ins url]⟩ ∧
    occursIn r (ocrErrorMessage m r ins url) ∧
    occursIn url (ocrErrorMessage m r ins url) ∧
    ∀ i ∈ ins, occursIn i (ocrErrorMessage m r ins url) := by
  refine ⟨?_, ?_, ?_, ?_⟩
  · obtain ⟨f, c⟩ := st
    cases f <;> cases c <;> simp_all [handleProcessInvoice]
  · rw [ocrErrorMessage_shape]
    exact ⟨_, _, rfl⟩
  · refine ⟨kw "❌ **" ++ m ++ kw "**\n\n" ++ kw "⚠️ **Lý do:** " ++ r ++ kw "\n\n" ++
      kw "🔧 **Cách khắc phục:**\n\n" ++ instrBlock ins ++ kw "\n📥 **Link tải:** ",
      kw "\n\n" ++ kw "💡 **Lưu ý:** Sau khi cài đặt, nhớ khởi động lại backend server!", ?_⟩
    simp [ocrErrorMessage]
  · intro i hi
    have h1 : occursIn i (instrBlock ins) := occursIn_instrBlock hi
    have h2 : ocrErrorMessage m r ins url =
        (kw "❌ **" ++ m ++ kw "**\n\n" ++ kw "⚠️ **Lý do:** " ++ r ++ kw "\n\n" ++
         kw "🔧 **Cách khắc phục:**\n\n") ++
        (instrBlock ins ++
         (kw "\n📥 **Link tải:** " ++ url ++ kw "\n\n" ++
          kw "💡 **Lưu ý:** Sau khi cài đặt, nhớ khởi động lại backend server!")) := by
      simp [ocrErrorMessage]
    rw [h2]
    exact occursIn_append_left _ (occursIn_append_right _ h1)

/-- Witness for claim C6 at a concrete OCR-unavailable payload and a session
holding a pending file. -/
theorem engine_unavailable_witness :
    handleProcessInvoice demoOcrEnv ⟨some (kw "bill.jpg"), false⟩ =
      ⟨⟨some (kw "bill.jpg"), false⟩, 1, none,
        [ocrErrorMessage (kw "OCR không khả dụng") (kw "Tesseract chưa được cài đặt")
          [kw "1. Tải Tesseract installer", kw "2. Chạy installer và cài đặt"]
          (kw "https://github.com/UB-Mannheim/tesseract/wiki")]⟩ ∧
    occursIn (kw "Tesseract chưa được cài đặt")
      (ocrErrorMessage (kw "OCR không khả dụng") (kw "Tesseract chưa được cài đặt")
        [kw "1. Tải Tesseract installer", kw "2. Chạy installer và cài đặt"]
        (kw "https://github.com/UB-Mannheim/tesseract/wiki")) ∧
    occursIn (kw "https://github.com/UB-Mannheim/tesseract/wiki")
      (ocrErrorMessage (kw "OCR không khả dụng") (kw "Tesseract chưa được cài đặt")
        [kw "1. Tải Tesseract installer", kw "2. Chạy installer và cài đặt"]
        (kw "https://github.com/UB-Mannheim/tesseract/wiki")) := by
  have h := engine_unavailable_surfaced_not_retried demoOcrEnv ⟨some (kw "bill.jpg"), false⟩
    (kw "OCR không khả dụng") (kw "Tesseract chưa được cài đặt")
    [kw "1. Tải Tesseract installer", kw "2. Chạy installer và cài đặt"]
    (kw "https://github.com/UB-Mannheim/tesseract/wiki") (by rfl) rfl
  exact ⟨h.1, h.2.1, h.2.2.1⟩

/-- Claim C7 (spec-modelled scoring and store, the backend is not under
src/): the confidence score is always clipped into the unit interval; a
worker persisting a scored record preserves the all-records bound; and the
displayed percentage of a bounded confidence lies in zero to one hundred. -/
theorem persisted_confidence_in_unit_interval :
    (∀ (wField wEngine : ℚ) (populated required : Nat) (engineConf : Option ℚ),
      0 ≤ confidenceScore wField wEngine populated required engineConf ∧
      confidenceScore wField wEngine populated required engineConf ≤ 1) ∧
    (∀ (store : BackendStore) (base : InvoiceRecord) (wField wEngine : ℚ)
        (populated required : Nat) (engineConf : Option ℚ),
      (∀ rec ∈ store.records, 0 ≤ rec.confidence ∧ rec.confidence ≤ 1) →
      ∀ rec ∈ (completeJob store base wField wEngine populated required engineConf).records,
        0 ≤ rec.confidence ∧ rec.confidence ≤ 1) ∧
    (∀ c : ℚ, 0 ≤ c → c ≤ 1 →
      0 ≤ displayedPercent c ∧ displayedPercent c ≤ 100) := by
  refine ⟨confidenceScore_bounds, ?_, ?_⟩
  · intro store base wField wEngine populated required engineConf hstore rec hrec
    unfold completeJob upsertRecord at hrec
    simp only at hrec
    by_cases hex : store.records.any
        (fun r => r.recordId == (scoredRecord base wField wEngine populated required engineConf).recordId)
    · rw [if_pos hex] at hrec
      obtain ⟨r0, hr0, heq⟩ := List.mem_map.mp hrec
      by_cases hid : r0.recordId == (scoredRecord base wField wEngine populated required engineConf).recordId
      · rw [if_pos hid] at heq
        rw [← heq]
        exact confidenceScore_bounds _ _ _ _ _
      · rw [if_neg hid] at heq
        rw [← heq]
        exact hstore r0 hr0
    · rw [if_neg hex] at hrec
      rcases List.mem_append.mp hrec with hmem | hmem
      · exact hstore rec hmem
      · rw [List.mem_singleton.mp hmem]
        exact confidenceScore_bounds _ _ _ _ _
  · intro c h0 h1
    unfold displayedPercent
    constructor
    · positivity
    · linarith

/-- Witness for claim C7 at concrete weights, counts, and a concrete store. -/
theorem persisted_confidence_witness :
    (0 ≤ confidenceScore (7/10) (3/10) 2 3 (some (1/2)) ∧
      confidenceScore (7/10) (3/10) 2 3 (some (1/2)) ≤ 1) ∧
    (∀ rec ∈ (completeJob demoStore demoRecord (7/10) (3/10) 2 3 (some (1/2))).records,
      0 ≤ rec.confidence ∧ rec.confidence ≤ 1) :=
  ⟨persisted_confidence_in_unit_interval.1 (7/10) (3/10) 2 3 (some (1/2)),
   persisted_confidence_in_unit_interval.2.1 demoStore demoRecord (7/10) (3/10) 2 3
     (some (1/2)) (by simp [demoStore])⟩

/-- Claim C8: the table filter never consults confidence (a low-confidence
record stays visible whenever it matches the search and type filters), and
both reliability indicators are total over confidence with exactly the three
declared bins. -/
theorem low_confidence_shown_with_indicator :
    (∀ (term ftype : Str) (inv : Invoice) (c : ℚ),
      filterPred term ftype { inv with confidence := c } = filterPred term ftype inv) ∧
    (∀ (term ftype : Str) (invs : List Invoice) (inv : Invoice),
      inv ∈ invs → filterPred term ftype inv = true →
      inv ∈ filteredInvoices term ftype invs) ∧
    (∀ c : ℚ,
      (getConfidenceColor c = greenClass ↔ (0.8 : ℚ) ≤ c) ∧
      (getConfidenceColor c = yellowClass ↔ (0.6 : ℚ) ≤ c ∧ c < (0.8 : ℚ)) ∧
      (getConfidenceColor c = redClass ↔ c < (0.6 : ℚ))) ∧
    (∀ c : ℚ,
      (confidenceIcon c = kw "✅" ↔ (0.8 : ℚ) ≤ c) ∧
      (confidenceIcon c = kw "⚠️" ↔ (0.6 : ℚ) ≤ c ∧ c < (0.8 : ℚ)) ∧
      (confidenceIcon c = kw "❌" ↔ c < (0.6 : ℚ))) := by
  refine ⟨fun term ftype inv c => rfl, ?_, getConfidenceColor_trichotomy,
    confidenceIcon_trichotomy⟩
  intro term ftype invs inv hmem hpred
  exact List.mem_filter.mpr ⟨hmem, hpred⟩

/-- Witness for claim C8 at concrete confidence values in each bin. -/
theorem low_confidence_shown_witness :
    getConfidenceColor ((1 : ℚ) / 2) = redClass ∧
    confidenceIcon ((1 : ℚ) / 2) = kw "❌" ∧
    getConfidenceColor ((7 : ℚ) / 10) = yellowClass ∧
    getConfidenceColor ((9 : ℚ) / 10) = greenClass :=
  ⟨(low_confidence_shown_with_indicator.2.2.1 ((1 : ℚ) / 2)).2.2.mpr (by norm_num),
   (low_confidence_shown_with_indicator.2.2.2 ((1 : ℚ) / 2)).2.2.mpr (by norm_num),
   (low_confidence_shown_with_indicator.2.2.1 ((7 : ℚ) / 10)).2.1.mpr (by norm_num),
   (low_confidence_shown_with_indicator.2.2.1 ((9 : ℚ) / 10)).1.mpr (by norm_num)⟩

/-- Claim C9: the session-state handlers keep at most one of pending file
and active camera — uploading a file deactivates the camera, starting the
camera clears the pending file, capturing sets the file and stops the
camera, and every routed command preserves the exclusivity invariant. -/
theorem session_state_exclusivity (env : Env) (st : ChatState) (s name : Str)
    (h : sessionInv st = true) :
    sessionInv (handleFileUpload name) = true ∧
    (handleFileUpload name).cameraActive = false ∧
    sessionInv (handleStartCamera env) = true ∧
    (handleStartCamera env).uploadedFile = none ∧
    sessionInv (handleStopCamera st) = true ∧
    sessionInv (handleCapturePhoto env st) = true ∧
    (env.captureOk = true →
      handleCapturePhoto env st = ⟨some env.captureName, false⟩) ∧
    sessionInv (handleChatCommand env st s).state = true := by
  refine ⟨rfl, rfl, ?_, rfl, ?_, ?_, ?_, sessionInv_handleChatCommand env st s h⟩
  · simp [handleStartCamera, sessionInv]
  · simp [handleStopCamera, sessionInv]
  · unfold handleCapturePhoto
    split
    · rfl
    · exact h
  · intro hc
    simp [handleCapturePhoto, hc]

/-- Witness for claim C9 at a concrete camera-active session and a capture
command. -/
theorem session_state_exclusivity_witness :
    sessionInv (handleFileUpload (kw "bill.jpg")) = true ∧
    (handleFileUpload (kw "bill.jpg")).cameraActive = false ∧
    sessionInv (handleStartCamera demoEnv) = true ∧
    (handleStartCamera demoEnv).uploadedFile = none ∧
    sessionInv (handleStopCamera ⟨none, true⟩) = true ∧
    sessionInv (handleCapturePhoto demoEnv ⟨none, true⟩) = true ∧
    (demoEnv.captureOk = true →
      handleCapturePhoto demoEnv ⟨none, true⟩ = ⟨some demoEnv.captureName, false⟩) ∧
    sessionInv (handleChatCommand demoEnv ⟨none, true⟩ (kw "chụp")).state = true :=
  session_state_exclusivity demoEnv ⟨none, true⟩ (kw "chụp") (kw "bill.jpg") (by decide)

/-- Claim C10: a process command arriving with no pending file and no
active camera is answered with the warning reply, makes no upload call,
leaves the session unchanged, and still counts as a matched command (it is
not forwarded to the chat fallback). -/
theorem process_guard_no_side_effects (env : Env) (st : ChatState) (s : Str)
    (hf : st.uploadedFile = none) (hc : st.cameraActive = false)
    (hr : routeIntent st s = some Intent.processInvoice) :
    handleChatCommand env st s = ⟨true, st, 0, 0, none, [noInvoiceWarning]⟩ ∧
    (env.chatOk = true → trimBoth s ≠ [] →
      (handleSendMessage env st s).reply = [noInvoiceWarning] ∧
      (handleSendMessage env st s).isCommand = true ∧
      (handleSendMessage env st s).state = st ∧
      (handleSendMessage env st s).uploadCalls = 0) := by
  have hstep : handleChatCommand env st s = ⟨true, st, 0, 0, none, [noInvoiceWarning]⟩ := by
    simp [handleChatCommand, hr, hf, hc]
  refine ⟨hstep, fun hok hne => ?_⟩
  simp [handleSendMessage, hne, hok, hstep]

/-- Witness for claim C10 at the concrete command "xử lý" in an empty
session. -/
theorem process_guard_no_side_effects_witness :
    handleChatCommand demoEnv ⟨none, false⟩ (kw "xử lý")
        = ⟨true, ⟨none, false⟩, 0, 0, none, [noInvoiceWarning]⟩ ∧
    ((handleSendMessage demoEnv ⟨none, false⟩ (kw "xử lý")).reply = [noInvoiceWarning] ∧
      (handleSendMessage demoEnv ⟨none, false⟩ (kw "xử lý")).isCommand = true ∧
      (handleSendMessage demoEnv ⟨none, false⟩ (kw "xử lý")).state = ⟨none, false⟩ ∧
      (handleSendMessage demoEnv ⟨none, false⟩ (kw "xử lý")).uploadCalls = 0) := by
  have h := process_guard_no_side_effects demoEnv ⟨none, false⟩ (kw "xử lý")
    rfl rfl (by decide)
  exact ⟨h.1, h.2 rfl (by decide)⟩

end InvoiceAI
